import Mathlib

/-!
Shallow embedding of the data-chat front-end script (streamlit_app.py).
The script holds a tabular dataset, a chat history and a chart history in
session state, sanitizes uploaded tables before JSON transport, posts
questions and chart instructions to a backend, and renders stored chart
results.  Scalar cell values, pandas column dtypes, and the sanitize steps
(astype(str) on object columns, replace(inf, NA), fillna(0)) are modelled
directly from the source; HTTP outcomes are an explicit parameter of each
handler.
-/

namespace DataChat

/-- A scalar cell of a pandas frame or of a JSON record: string, finite
number (rationals stand in for floats whose value is finite), boolean,
None/null, NaN, +inf, -inf, or a native datetime value (year, month, day,
hour, minute, second). -/
inductive Cell where
  | str (s : String)
  | num (q : Rat)
  | bool (b : Bool)
  | null
  | nan
  | inf
  | ninf
  | dt (year month day hour minute second : Nat)
deriving DecidableEq, Repr

/-- Pandas column dtypes that the script can produce or branch on. -/
inductive Dtype where
  | object
  | float64
  | int64
  | datetime
deriving DecidableEq, Repr

/-- One named column of a frame, with its dtype and cells. -/
structure Column where
  name : String
  dtype : Dtype
  cells : List Cell
deriving DecidableEq, Repr

/-- An in-memory tabular dataset, columnar, as pandas holds it. -/
structure Frame where
  cols : List Column
deriving DecidableEq, Repr

/-- Python str.endswith, over the character list. -/
def pyEndsWith (s suf : String) : Bool :=
  suf.data.isSuffixOf s.data

/-- Whether a string strips to empty, i.e. Python s.strip() is falsy:
every character is whitespace (or the string is empty). -/
def pyBlank (s : String) : Bool :=
  s.data.all Char.isWhitespace

/-- Python str.lower, over the character list. -/
def pyLower (s : String) : String :=
  ⟨s.data.map Char.toLower⟩

/-- Zero-pad a numeral to two digits. -/
def pad2 (n : Nat) : String :=
  if n < 10 then "0" ++ toString n else toString n

/-- Zero-pad a numeral to four digits. -/
def pad4 (n : Nat) : String :=
  if n < 1000 then
    if n < 100 then
      if n < 10 then "000" ++ toString n else "00" ++ toString n
    else "0" ++ toString n
  else toString n

/-- The fixed textual pattern the script uses for datetimes. -/
def fmtDatetime (y mo d h mi s : Nat) : String :=
  pad4 y ++ "-" ++ pad2 mo ++ "-" ++ pad2 d ++ " " ++
    pad2 h ++ ":" ++ pad2 mi ++ ":" ++ pad2 s

/-- Python str() of a scalar, as pandas astype(str) applies it elementwise:
NaN becomes the text nan, None becomes the text None, infinities become
inf and -inf. -/
def pyStr : Cell → String
  | .str s => s
  | .num q => if q.den = 1 then toString q.num ++ ".0" else toString q
  | .bool b => if b then "True" else "False"
  | .null => "None"
  | .nan => "nan"
  | .inf => "inf"
  | .ninf => "-inf"
  | .dt y mo d h mi s => fmtDatetime y mo d h mi s

/-- astype(str) on one cell: the cell becomes its textual form. -/
def astypeStrCell (c : Cell) : Cell := .str (pyStr c)

/-- replace([inf, -inf], pd.NA) on one cell. -/
def replaceInfCell : Cell → Cell
  | .inf => .null
  | .ninf => .null
  | c => c

/-- fillna(0) on one cell: NaN and NA/None become the number 0. -/
def fillnaCell : Cell → Cell
  | .nan => .num 0
  | .null => .num 0
  | c => c

/-- The two frame-wide sanitize steps applied to one cell, in source
order: replace infinities by NA, then fill NA with 0. -/
def sanCell (c : Cell) : Cell := fillnaCell (replaceInfCell c)

/-- Sanitize one column as process_user_data does: object-dtype columns
are first stringified elementwise, then infinities are replaced by NA and
NA is filled with 0. -/
def sanCol (col : Column) : Column :=
  { col with
    cells :=
      (if col.dtype = .object then col.cells.map astypeStrCell else col.cells).map sanCell }

/-- The sanitize pipeline over a whole frame (source lines 52-59). -/
def sanitizeFrame (f : Frame) : Frame :=
  ⟨f.cols.map sanCol⟩

/-- The Excel-branch step (source lines 46-47) on one column: a
datetime-dtype column is reformatted cellwise by strftime into the fixed
textual pattern, becoming an object column; other columns are untouched. -/
def convCol (col : Column) : Column :=
  if col.dtype = .datetime then
    { col with
      dtype := .object,
      cells := col.cells.map (fun c =>
        match c with
        | .dt y mo d h mi s => .str (fmtDatetime y mo d h mi s)
        | c => c) }
  else col

/-- The Excel-branch step over the whole frame. -/
def convertDatetimes (f : Frame) : Frame :=
  ⟨f.cols.map convCol⟩

/-- process_user_data: dispatch on the file extension.  The parsed frame
(the output of pandas read_csv or read_excel on the file) is a parameter;
the CSV branch sanitizes it directly, the Excel branch first reformats
datetime columns, any other extension yields no dataset. -/
def process_user_data (name : String) (parsed : Frame) : Option Frame :=
  if pyEndsWith name ".csv" then
    some (sanitizeFrame parsed)
  else if pyEndsWith name ".xlsx" then
    some (sanitizeFrame (convertDatetimes parsed))
  else
    none

/-- Column at position i of a frame, with a fixed default off the end. -/
def colD (f : Frame) (i : Nat) : Column :=
  f.cols.getD i ⟨"", .float64, []⟩

/-- Cell at column i, row j of a frame, with a fixed default off the end. -/
def cellAt (f : Frame) (i j : Nat) : Cell :=
  (colD f i).cells.getD j (.num 0)

/-- Whether a cell is a non-finite number or a missing marker: NaN, an
infinity, or None/NA. -/
def isBadCell : Cell → Bool
  | .nan => true
  | .inf => true
  | .ninf => true
  | .null => true
  | _ => false

/-- One turn of the conversation: a role tag and its text. -/
structure ChatMsg where
  role : String
  content : String
deriving DecidableEq, Repr

/-- A row-oriented table as pandas builds it from a list of JSON records:
column names in order, and rows of cells aligned with them. -/
structure Table where
  cols : List String
  rows : List (List Cell)
deriving DecidableEq, Repr

/-- One stored chart request and its tabular result. -/
structure ChartEntry where
  instruction : String
  chart_type : String
  df_final : Table
deriving DecidableEq, Repr

/-- The session state the script keeps across reruns. -/
structure SessionState where
  current_data : Option Frame
  data_source_visible : Bool
  chat_history : List ChatMsg
  chart_history : List ChartEntry
  selected_tab : String
deriving DecidableEq, Repr

/-- A JSON field that may be absent, explicitly null, or a string. -/
inductive JsonField where
  | absent
  | null
  | str (s : String)
deriving DecidableEq, Repr

/-- Python truthiness of body.get on such a field: only a non-empty
string is truthy; an absent or null field reads as None. -/
def JsonField.truthy : JsonField → Bool
  | .str s => s ≠ ""
  | _ => false

/-- The JSON body of a reply to the chat endpoint. -/
structure ChatBody where
  answer : Option String
  detail : Option String
deriving DecidableEq, Repr

/-- A JSON record: an ordered list of key-cell pairs. -/
abbrev Rec : Type := List (String × Cell)

/-- The JSON body of a reply to the chart endpoint. -/
structure ChartBody where
  df_final : Option (List Rec)
  error : JsonField
  detail : Option String
deriving DecidableEq, Repr

/-- The outcome of one HTTP POST: a response with a status code and a
parsed JSON body, or a transport exception with its message. -/
inductive HttpOutcome (β : Type) where
  | resp (status : Nat) (body : β)
  | exn (msg : String)

/-- Union of the record keys in first-appearance order, as pandas
DataFrame(list-of-dicts) assembles its columns. -/
def keysUnion (rs : List Rec) : List String :=
  rs.foldl (fun acc r =>
    r.foldl (fun a kv => if kv.1 ∈ a then a else a ++ [kv.1]) acc) []

/-- Look a key up in a record; a record missing the key contributes NaN,
as pandas fills absent fields. -/
def lookupRec (k : String) (r : Rec) : Cell :=
  match r.find? (fun kv => kv.1 == k) with
  | some kv => kv.2
  | none => .nan

/-- pd.DataFrame on a list of JSON records; the empty list yields the
empty table with zero columns and zero rows. -/
def dfOfRecords (rs : List Rec) : Table :=
  let ks := keysUnion rs
  ⟨ks, rs.map (fun r => ks.map (fun k => lookupRec k r))⟩

/-- to_dict(orient=records) of a frame: one record per row pairing each
column name with its cell. -/
def frameRecords (f : Frame) : List Rec :=
  (List.range ((f.cols.map (fun c => c.cells.length)).foldr max 0)).map
    (fun i => f.cols.map (fun c => (c.name, c.cells.getD i .nan)))

/-- The JSON body the chat handler POSTs: question, dataset records, and
the bounded history view. -/
structure ChatReq where
  question : String
  data : List Rec
  history : List ChatMsg
deriving DecidableEq, Repr

/-- The last n elements of a list, as a Python slice xs[-n:] takes them. -/
def lastN (n : Nat) (xs : List α) : List α :=
  xs.drop (xs.length - n)

/-- Result of running the chat submit handler once: the new session
state, the error messages surfaced, and the request sent (none when no
POST was issued). -/
structure ChatResult where
  state : SessionState
  errors : List String
  request : Option ChatReq
deriving DecidableEq, Repr

/-- The fallback answer text used when the reply lacks an answer field. -/
def fallbackAnswer : String :=
  "I couldn\x27t find the answer. Try rephrasing or asking a different question."

/-- The chat submit handler (source lines 203-228).  When the submit flag
is set and the question is not whitespace-only, the user question is
appended to chat history and a POST is issued carrying the question, the
current dataset as records, and the last 10 turns of the updated history.
On a 200 reply the answer (or the fallback text) is appended as an
assistant turn; on a non-200 reply or a transport exception an error is
surfaced and nothing further is appended. -/
def chat_submit (s : SessionState) (submit : Bool) (q : String)
    (net : HttpOutcome ChatBody) : ChatResult :=
  if submit && !pyBlank q then
    let s1 := { s with chat_history := s.chat_history ++ [⟨"user", q⟩] }
    let req : ChatReq :=
      ⟨q, (s.current_data.map frameRecords).getD [], lastN 10 s1.chat_history⟩
    match net with
    | .resp status body =>
      if status = 200 then
        let answer := body.answer.getD fallbackAnswer
        ⟨{ s1 with chat_history := s1.chat_history ++ [⟨"assistant", answer⟩] },
          [], some req⟩
      else
        ⟨s1, ["Error: " ++ body.detail.getD "Unknown error."], some req⟩
    | .exn m =>
      ⟨s1, ["An error occurred: " ++ m], some req⟩
  else
    ⟨s, [], none⟩

/-- Result of running the chart submit handler once: the new session
state, the error messages surfaced, and whether a POST was issued. -/
structure ChartResult where
  state : SessionState
  errors : List String
  sent : Bool
deriving DecidableEq, Repr

/-- The chart submit handler (source lines 282-309).  When the generate
flag is set and the instruction is not whitespace-only, a POST is issued.
On a 200 reply whose error field is truthy the error is surfaced and
nothing is stored; on a 200 reply otherwise a new entry holding the
df_final records (default empty) as a table is appended to chart history;
on a non-200 reply or a transport exception an error is surfaced and
nothing is stored. -/
def chart_submit (s : SessionState) (gen : Bool) (instruction ctype : String)
    (net : HttpOutcome ChartBody) : ChartResult :=
  if gen && !pyBlank instruction then
    match net with
    | .resp status body =>
      if status = 200 then
        if body.error.truthy then
          ⟨s, [match body.error with | .str e => e | _ => ""], true⟩
        else
          ⟨{ s with chart_history := s.chart_history ++
              [⟨instruction, ctype, dfOfRecords (body.df_final.getD [])⟩] },
            [], true⟩
      else
        ⟨s, ["Error: " ++ body.detail.getD "Unknown error."], true⟩
    | .exn _ =>
      ⟨s, ["I\x27m sorry, I couldn\x27t process your request. Please try rephrasing your question."],
        true⟩
  else
    ⟨s, [], false⟩

/-- The Clear Chat button handler (source lines 266-268): chat history is
emptied; nothing else in session state is touched. -/
def clear_chat (s : SessionState) : SessionState :=
  { s with chat_history := [] }

/-- A Python float for comparison purposes: finite (a rational), NaN, or
a signed infinity.  NaN compares False under less-than. -/
inductive PyFloat where
  | fin (q : Rat)
  | nan
  | inf
  | ninf
deriving DecidableEq, Repr

/-- v less than zero, with Python float comparison semantics: NaN is
never less than zero. -/
def PyFloat.ltZero : PyFloat → Bool
  | .fin q => q < 0
  | .ninf => true
  | _ => false

/-- Value of a string of decimal digits, none when a non-digit occurs. -/
def natOfDigits (cs : List Char) : Option Nat :=
  cs.foldl (fun acc c =>
    match acc with
    | none => none
    | some n => if c.isDigit then some (n * 10 + (c.toNat - 48)) else none)
    (some 0)

/-- Value of an unsigned decimal literal split at the point, none when
either part has a non-digit or both parts are empty. -/
def decOfParts (ip fp : List Char) : Option Rat :=
  if ip.isEmpty && fp.isEmpty then none
  else
    match natOfDigits ip, natOfDigits fp with
    | some a, some b => some ((a : Rat) + (b : Rat) / ((10 : Rat) ^ fp.length))
    | _, _ => none

/-- Split a character list at every point character. -/
def splitDot : List Char → List (List Char)
  | [] => [[]]
  | c :: cs =>
    if c = '.' then [] :: splitDot cs
    else
      match splitDot cs with
      | [] => [[c]]
      | p :: ps => (c :: p) :: ps

/-- Python float() on a string: strip whitespace, optional sign, then
inf/infinity, nan, or a decimal literal; anything else raises (none).
Exponent syntax is not modelled: no claim evaluates it. -/
def strFloat (s : String) : Option PyFloat :=
  let t := ((s.data.dropWhile Char.isWhitespace).reverse.dropWhile
    Char.isWhitespace).reverse
  let neg := t.head? = some '-'
  let u := if t.head? = some '-' || t.head? = some '+' then t.tail else t
  let l := u.map Char.toLower
  if l = "inf".data || l = "infinity".data then
    some (if neg then .ninf else .inf)
  else if l = "nan".data then
    some .nan
  else
    match splitDot u with
    | [ip] => (decOfParts ip []).map (fun q => .fin (if neg then -q else q))
    | [ip, fp] => (decOfParts ip fp).map (fun q => .fin (if neg then -q else q))
    | _ => none

/-- astype(float) on one cell: numbers and booleans convert, None becomes
NaN, strings parse as Python float(), native datetimes raise. -/
def cellFloat : Cell → Option PyFloat
  | .num q => some (.fin q)
  | .bool b => some (.fin (if b then 1 else 0))
  | .null => some .nan
  | .nan => some .nan
  | .inf => some .inf
  | .ninf => some .ninf
  | .str s => strFloat s
  | .dt _ _ _ _ _ _ => none

/-- Convert each element or fail as a whole, as astype fails the whole
column when one element does not convert. -/
def optMapM (f : α → Option β) : List α → Option (List β)
  | [] => some []
  | x :: xs =>
    match f x, optMapM f xs with
    | some y, some ys => some (y :: ys)
    | _, _ => none

/-- iloc[:, 1].astype(float) of a stored table: none when the table has
fewer than two columns (positional indexing raises) or some cell fails to
convert. -/
def colFloats (t : Table) : Option (List PyFloat) :=
  if t.cols.length < 2 then none
  else optMapM (fun r => cellFloat (r.getD 1 .null)) t.rows

/-- The pie inputs: labels from the first column stringified, values from
the second column as floats. -/
def pieData (t : Table) : Option (List String × List PyFloat) :=
  (colFloats t).map (fun vs => (t.rows.map (fun r => pyStr (r.getD 0 .null)), vs))

/-- One visible step the rendering loop performs for an entry: a markdown
line, an error or warning box, one of the four chart widgets, the
matplotlib pie call, the raw table fallback, or an uncaught exception. -/
inductive RenderAction where
  | markdown (s : String)
  | errorMsg (s : String)
  | warningMsg (s : String)
  | barChart
  | areaChart
  | lineChart
  | scatterChart
  | pyplotPie (labels : List String) (values : List PyFloat)
  | dataframeView
  | raised (msg : String)
deriving DecidableEq, Repr

/-- Whether an action invokes a chart widget or the pie-plotting call. -/
def RenderAction.isChartCall : RenderAction → Bool
  | .barChart => true
  | .areaChart => true
  | .lineChart => true
  | .scatterChart => true
  | .pyplotPie _ _ => true
  | _ => false

/-- The error text shown for an empty or column-less stored table. -/
def noDataMsg : String := "No data found. Please try rephrasing your question."

/-- The error text shown when a pie value is negative. -/
def negPieMsg : String :=
  "Cannot plot negative values on a pie chart. Please try another chart type or adjust the data."

/-- First value of the Error column of a table, as Error iloc[0] reads
it; defaults are never reached on the paths the loop takes. -/
def errorFirst (t : Table) : Cell :=
  match t.rows with
  | [] => .null
  | r :: _ => r.getD (t.cols.indexOf "Error") .null

/-- The two markdown lines that open every rendered entry. -/
def entryHeader (e : ChartEntry) : List RenderAction :=
  [.markdown ("**Instruction**: " ++ e.instruction),
   .markdown ("**Chart Type**: " ++ e.chart_type)]

/-- Rendering of one chart history entry (source lines 313-362): an
empty or column-less table shows the no-data error and stops; a table
with an Error column shows that column first value and stops; otherwise
the lowercased chart type picks a widget, with the pie branch converting
the second column to floats and refusing negative values. -/
def render_entry (e : ChartEntry) : List RenderAction :=
  entryHeader e ++
  (let t := e.df_final
   if t.rows = [] || t.cols = [] then
     [.errorMsg noDataMsg, .markdown "---"]
   else if "Error" ∈ t.cols then
     [.errorMsg (pyStr (errorFirst t)), .markdown "---"]
   else
     let ct := pyLower e.chart_type
     if ct = "bar" then [.barChart, .markdown "---"]
     else if ct = "area" then [.areaChart, .markdown "---"]
     else if ct = "line" then [.lineChart, .markdown "---"]
     else if ct = "scatter" then [.scatterChart, .markdown "---"]
     else if ct = "pie" then
       if t.rows = [] then [.warningMsg "No data to display for a pie chart.", .markdown "---"]
       else
         match pieData t with
         | none => [.raised "float conversion"]
         | some (labels, values) =>
           if values.any PyFloat.ltZero then
             [.errorMsg negPieMsg, .markdown "---"]
           else
             [.pyplotPie labels values, .markdown "---"]
     else [.dataframeView, .markdown "---"])

/-- The display loop walks the chart history newest first and renders
each entry in turn. -/
def render_history (hist : List ChartEntry) : List RenderAction :=
  (hist.reverse.map render_entry).flatten

/-!
Concrete fixtures used by witnesses and counterexamples.
-/

/-- Modelled pandas.read_csv output for a file a.csv with header line
date,amount and data line 2024-01-01,NaN: read_csv performs no date
parsing by default, so the date column is an object column holding the
raw text, while the amount column is float64 holding NaN (the NaN token
is a recognized missing-value sentinel). -/
def csvA : Frame :=
  ⟨[⟨"date", .object, [.str "2024-01-01"]⟩,
    ⟨"amount", .float64, [.nan]⟩]⟩

/-- Modelled pandas.read_csv output for a CSV column x with values a and
an empty field: a mixed column is object dtype, and the empty field is a
recognized missing-value sentinel read as float NaN inside the object
column. -/
def objFrame : Frame :=
  ⟨[⟨"x", .object, [.str "a", .nan]⟩]⟩

/-- A small loaded dataset for handler fixtures. -/
def dfA : Frame := ⟨[⟨"v", .float64, [.num 1]⟩]⟩

/-- A session state with data loaded and empty histories. -/
def s0 : SessionState := ⟨some dfA, false, [], [], "Conversation"⟩

/-- A 200-reply chart body whose error field is explicitly null and whose
df_final carries one record. -/
def bodyNullErr : ChartBody :=
  ⟨some [[("a", .str "A"), ("b", .num 1)]], .null, none⟩

/-- A stored chart entry whose table is empty. -/
def entEmpty : ChartEntry := ⟨"avg by month", "Bar", ⟨[], []⟩⟩

/-- A stored pie entry whose second column holds a negative value. -/
def entNeg : ChartEntry :=
  ⟨"share by label", "Pie",
    ⟨["a", "b"], [[.str "A", .num (-5)], [.str "B", .num 10]]⟩⟩

/-- A stored pie entry whose second column holds a negative value next to
a string that does not convert to float. -/
def entNegBad : ChartEntry :=
  ⟨"share by label", "Pie",
    ⟨["a", "b"], [[.str "A", .num (-5)], [.str "B", .str "zzz"]]⟩⟩

/-- A 12-turn chat history fixture. -/
def hist12 : List ChatMsg := (List.range 12).map (fun i => ⟨"user", toString i⟩)

/-- A session state carrying the 12-turn history. -/
def s12 : SessionState := ⟨some dfA, false, hist12, [], "Conversation"⟩

/-- The request the chat handler builds from s12 for question q. -/
def req12 : ChatReq :=
  ⟨"q", [[("v", .num 1)]], lastN 10 (hist12 ++ [⟨"user", "q"⟩])⟩

/-!
General helper lemmas.
-/

theorem getD_map_fix (g : α → α) (l : List α) (j : Nat) (d : α) (hd : g d = d) :
    (l.map g).getD j d = g (l.getD j d) := by
  simp only [List.getD_eq_getElem?_getD, List.getElem?_map]
  cases l[j]? <;> simp [hd]

theorem isBadCell_sanCell (c : Cell) : isBadCell (sanCell c) = false := by
  cases c <;> rfl

theorem sanCell_of_bad (c : Cell) (h : isBadCell c = true) : sanCell c = .num 0 := by
  cases c <;> simp_all [sanCell, replaceInfCell, fillnaCell, isBadCell]

theorem mem_sanCol_not_bad (col : Column) (c : Cell) (h : c ∈ (sanCol col).cells) :
    isBadCell c = false := by
  simp only [sanCol, List.mem_map] at h
  obtain ⟨x, -, rfl⟩ := h
  exact isBadCell_sanCell x

theorem sanitizeFrame_not_bad (f : Frame) :
    ∀ col ∈ (sanitizeFrame f).cols, ∀ c ∈ col.cells, isBadCell c = false := by
  intro col hcol c hc
  simp only [sanitizeFrame, List.mem_map] at hcol
  obtain ⟨col0, -, rfl⟩ := hcol
  exact mem_sanCol_not_bad col0 c hc

theorem sanCol_default : sanCol ⟨"", .float64, []⟩ = ⟨"", .float64, []⟩ := by
  rfl

theorem convCol_default : convCol ⟨"", .float64, []⟩ = ⟨"", .float64, []⟩ := by
  rfl

theorem colD_sanitize (f : Frame) (i : Nat) :
    colD (sanitizeFrame f) i = sanCol (colD f i) :=
  getD_map_fix sanCol f.cols i _ sanCol_default

theorem colD_convert (f : Frame) (i : Nat) :
    colD (convertDatetimes f) i = convCol (colD f i) :=
  getD_map_fix convCol f.cols i _ convCol_default

theorem convCol_of_not_datetime (col : Column) (h : col.dtype ≠ .datetime) :
    convCol col = col := by
  simp [convCol, h]

theorem cellAt_sanitize_numeric (f : Frame) (i j : Nat)
    (hd : (colD f i).dtype ≠ .object) :
    cellAt (sanitizeFrame f) i j = sanCell (cellAt f i j) := by
  unfold cellAt
  rw [colD_sanitize]
  simp only [sanCol, if_neg hd]
  exact getD_map_fix sanCell (colD f i).cells j (.num 0) rfl

/-!
Claim theorems.
-/

/-- Claim C2 (counterexample): uploading a.csv with columns date,amount
and the row 2024-01-01,NaN does not yield the dataset row with the date
reformatted to 2024-01-01 00:00:00 — the produced row keeps the raw date
text, because only the Excel branch reformats datetime columns. -/
theorem csv_date_unreformatted :
    (process_user_data "a.csv" csvA).map (fun f => [cellAt f 0 0, cellAt f 1 0])
      = some [.str "2024-01-01", .num 0]
    ∧ (process_user_data "a.csv" csvA).map (fun f => cellAt f 0 0)
      ≠ some (.str "2024-01-01 00:00:00") := by
  decide

/-- Claim C2 (amended): uploading a.csv with columns date,amount and the
row 2024-01-01,NaN yields the dataset row with the date text unchanged,
2024-01-01, and the NaN amount replaced with 0; CSV uploads do not
reformat date text. -/
theorem csv_scenario_row :
    process_user_data "a.csv" csvA =
      some ⟨[⟨"date", .object, [.str "2024-01-01"]⟩,
             ⟨"amount", .float64, [.num 0]⟩]⟩ := by
  decide

/-- Claim C3 (counterexample): a NaN sitting in an object-dtype column is
not replaced with zero — the stringify pass turns it into the text nan
before the replace and fillna steps run, so the ingested dataset holds
the string nan where the claim requires the number 0. -/
theorem object_nan_not_zero :
    cellAt objFrame 0 1 = .nan
    ∧ (process_user_data "b.csv" objFrame).map (fun f => cellAt f 0 1)
      = some (.str "nan")
    ∧ some (Cell.str "nan") ≠ some (Cell.num 0) := by
  decide

/-- Claim C3 (amended): for every input table, the dataset returned by
ingestion contains no non-finite numeric value and no missing marker in
any cell; non-finite or missing values sitting in numeric (float64 or
int64) columns are replaced with the number zero, while those in
object-dtype columns are stringified. -/
theorem ingestion_sanitized (name : String) (parsed out : Frame)
    (h : process_user_data name parsed = some out) :
    (∀ col ∈ out.cols, ∀ c ∈ col.cells, isBadCell c = false)
    ∧ ∀ i j, ((colD parsed i).dtype = .float64 ∨ (colD parsed i).dtype = .int64) →
        isBadCell (cellAt parsed i j) = true → cellAt out i j = .num 0 := by
  unfold process_user_data at h
  split at h
  · cases h
    refine ⟨sanitizeFrame_not_bad parsed, fun i j hty hbad => ?_⟩
    have hno : (colD parsed i).dtype ≠ .object := by
      rcases hty with hty | hty <;> simp [hty]
    rw [cellAt_sanitize_numeric parsed i j hno]
    exact sanCell_of_bad _ hbad
  · split at h
    · cases h
      refine ⟨sanitizeFrame_not_bad _, fun i j hty hbad => ?_⟩
      have hnotdt : (colD parsed i).dtype ≠ .datetime := by
        rcases hty with hty | hty <;> simp [hty]
      have hcd : colD (convertDatetimes parsed) i = colD parsed i := by
        rw [colD_convert]
        exact convCol_of_not_datetime _ hnotdt
      have hno : (colD (convertDatetimes parsed) i).dtype ≠ .object := by
        rw [hcd]
        rcases hty with hty | hty <;> simp [hty]
      have hcell : cellAt (convertDatetimes parsed) i j = cellAt parsed i j := by
        unfold cellAt
        rw [hcd]
      rw [cellAt_sanitize_numeric _ i j hno, hcell]
      exact sanCell_of_bad _ hbad
    · cases h

/-- Witness for ingestion_sanitized: on the concrete a.csv upload the NaN
amount cell comes out as the number 0. -/
theorem ingestion_sanitized_witness :
    cellAt (sanitizeFrame csvA) 1 0 = .num 0 :=
  (ingestion_sanitized "a.csv" csvA (sanitizeFrame csvA) (by decide)).2 1 0
    (Or.inl (by decide)) (by decide)

/-- Claim C4: for every empty or whitespace-only question string,
submitting the conversation form is a no-op: session state is unchanged,
no error is surfaced, and no HTTP request is issued. -/
theorem blank_question_noop (s : SessionState) (b : Bool) (q : String)
    (net : HttpOutcome ChatBody) (h : pyBlank q = true) :
    chat_submit s b q net = ⟨s, [], none⟩ := by
  simp [chat_submit, h]

/-- Witness for blank_question_noop at a whitespace-only question. -/
theorem blank_question_noop_witness :
    pyBlank "  " = true
    ∧ chat_submit s0 true "  " (.resp 200 ⟨some "a", none⟩) = ⟨s0, [], none⟩ :=
  ⟨by decide, blank_question_noop s0 true "  " (.resp 200 ⟨some "a", none⟩) (by decide)⟩

theorem lastN_length_le (n : Nat) (xs : List α) : (lastN n xs).length ≤ n := by
  simp only [lastN, List.length_drop]
  omega

theorem lastN_suffix (n : Nat) (xs : List α) :
    ∃ t, t ++ lastN n xs = xs :=
  ⟨xs.take (xs.length - n), List.take_append_drop _ xs⟩

/-- Claim C8: whenever the chat handler issues a POST, the history field
of the request holds at most 10 turns, and those turns are a suffix of
the session chat history as it stands when the request is sent (the
history with the just-submitted question appended). -/
theorem history_bounded (s : SessionState) (b : Bool) (q : String)
    (net : HttpOutcome ChatBody) (req : ChatReq)
    (h : (chat_submit s b q net).request = some req) :
    req.history.length ≤ 10
    ∧ ∃ t, t ++ req.history = s.chat_history ++ [⟨"user", q⟩] := by
  have hreq : req = ⟨q, (s.current_data.map frameRecords).getD [],
      lastN 10 (s.chat_history ++ [⟨"user", q⟩])⟩ := by
    by_cases hc : (b && !pyBlank q) = true
    · cases net with
      | resp st body =>
        by_cases hst : st = 200 <;>
          simp [chat_submit, hc, hst] at h <;> exact h.symm
      | exn m =>
        simp [chat_submit, hc] at h
        exact h.symm
    · simp [chat_submit, hc] at h
  subst hreq
  exact ⟨lastN_length_le 10 _, lastN_suffix 10 _⟩

/-- Witness for history_bounded on a 12-turn history: the request the
handler sends carries at most 10 turns, a suffix of the history. -/
theorem history_bounded_witness :
    req12.history.length ≤ 10
    ∧ ∃ t, t ++ req12.history = s12.chat_history ++ [⟨"user", "q"⟩] :=
  history_bounded s12 true "q" (.resp 200 ⟨some "a", none⟩) req12 (by decide)

/-- Claim C1 (counterexample): on a non-200 backend reply the chat
history is not left unchanged — the handler appends the user question
before issuing the request, so after a 500 reply the history has gained
the question even though an error was surfaced. -/
theorem chat_failure_history_changed :
    (chat_submit s0 true "q" (.resp 500 ⟨none, some "boom"⟩)).state.chat_history
      = [⟨"user", "q"⟩]
    ∧ s0.chat_history = []
    ∧ (chat_submit s0 true "q" (.resp 500 ⟨none, some "boom"⟩)).errors
      = ["Error: boom"] := by
  decide

/-- Claim C1 (amended): for every submitted non-empty question, the
question-and-answer pair is appended to chat history exactly when the
backend responds 200 (the answer defaulting to the fallback string when
the answer field is absent); on a non-200 reply or a transport exception
an error is surfaced, the assistant answer is not appended, but the
question alone remains appended to chat history. -/
theorem chat_submit_cases (s : SessionState) (q : String)
    (net : HttpOutcome ChatBody) (hq : pyBlank q = false) :
    (∀ body, net = .resp 200 body →
      chat_submit s true q net =
        ⟨{ s with chat_history := s.chat_history ++
            [⟨"user", q⟩, ⟨"assistant", body.answer.getD fallbackAnswer⟩] },
         [],
         some ⟨q, (s.current_data.map frameRecords).getD [],
           lastN 10 (s.chat_history ++ [⟨"user", q⟩])⟩⟩)
    ∧ (∀ st body, net = .resp st body → st ≠ 200 →
      (chat_submit s true q net).state.chat_history = s.chat_history ++ [⟨"user", q⟩]
      ∧ (chat_submit s true q net).errors
          = ["Error: " ++ body.detail.getD "Unknown error."])
    ∧ (∀ m, net = .exn m →
      (chat_submit s true q net).state.chat_history = s.chat_history ++ [⟨"user", q⟩]
      ∧ (chat_submit s true q net).errors = ["An error occurred: " ++ m]) := by
  refine ⟨fun body hnet => ?_, fun st body hnet hst => ?_, fun m hnet => ?_⟩
  · subst hnet
    simp [chat_submit, hq]
  · subst hnet
    constructor <;> simp [chat_submit, hq, hst]
  · subst hnet
    constructor <;> simp [chat_submit, hq]

/-- Witness for chat_submit_cases: the 200 case at a concrete state,
question and reply, with the reply answer 1000 appended after the
question. -/
theorem chat_submit_cases_witness :
    chat_submit s0 true "q2" (.resp 200 ⟨some "1000", none⟩) =
      ⟨{ s0 with chat_history := s0.chat_history ++
          [⟨"user", "q2"⟩, ⟨"assistant", (some "1000").getD fallbackAnswer⟩] },
       [],
       some ⟨"q2", (s0.current_data.map frameRecords).getD [],
         lastN 10 (s0.chat_history ++ [⟨"user", "q2"⟩])⟩⟩ :=
  (chat_submit_cases s0 "q2" (.resp 200 ⟨some "1000", none⟩) (by decide)).1
    ⟨some "1000", none⟩ rfl

/-- Claim C5 (counterexample): a 200 chart reply whose body carries an
explicit error field set to null still stores a new chart history entry
with no error surfaced, although the response does carry an error
field. -/
theorem null_error_field_stored :
    (chart_submit s0 true "i" "Bar" (.resp 200 bodyNullErr)).state.chart_history
      = [⟨"i", "Bar", ⟨["a", "b"], [[.str "A", .num 1]]⟩⟩]
    ∧ s0.chart_history = []
    ∧ (chart_submit s0 true "i" "Bar" (.resp 200 bodyNullErr)).errors = []
    ∧ bodyNullErr.error ≠ .absent := by
  decide

/-- Claim C5 (amended): a new chart history entry is stored exactly when
the backend responds 200 and the error field of the reply is falsy
(absent, null, or the empty string); when the reply carries a truthy
error string, is non-200, or a transport failure occurs, an error is
surfaced and chart history is left unchanged. -/
theorem chart_submit_cases (s : SessionState) (instr ctype : String)
    (net : HttpOutcome ChartBody) (h : pyBlank instr = false) :
    (∀ body, net = .resp 200 body → body.error.truthy = false →
      (chart_submit s true instr ctype net).state.chart_history
        = s.chart_history ++ [⟨instr, ctype, dfOfRecords (body.df_final.getD [])⟩]
      ∧ (chart_submit s true instr ctype net).errors = [])
    ∧ (∀ body, net = .resp 200 body → body.error.truthy = true →
      (chart_submit s true instr ctype net).state = s
      ∧ (chart_submit s true instr ctype net).errors ≠ [])
    ∧ (∀ st body, net = .resp st body → st ≠ 200 →
      (chart_submit s true instr ctype net).state = s
      ∧ (chart_submit s true instr ctype net).errors ≠ [])
    ∧ (∀ m, net = .exn m →
      (chart_submit s true instr ctype net).state = s
      ∧ (chart_submit s true instr ctype net).errors ≠ []) := by
  refine ⟨fun body hnet herr => ?_, fun body hnet herr => ?_,
    fun st body hnet hst => ?_, fun m hnet => ?_⟩
  · subst hnet
    simp [chart_submit, h, herr]
  · subst hnet
    constructor <;> simp [chart_submit, h, herr]
  · subst hnet
    constructor <;> simp [chart_submit, h, hst]
  · subst hnet
    constructor <;> simp [chart_submit, h]

/-- Witness for chart_submit_cases: a 200 reply with the error field
absent stores its one-record table as a new entry and surfaces nothing. -/
theorem chart_submit_cases_witness :
    (chart_submit s0 true "totals" "Bar"
        (.resp 200 ⟨some [[("k", .str "A"), ("v", .num 2)]], .absent, none⟩)).state.chart_history
      = s0.chart_history ++
        [⟨"totals", "Bar",
          dfOfRecords ((some [[("k", .str "A"), ("v", .num 2)]]).getD [])⟩]
    ∧ (chart_submit s0 true "totals" "Bar"
        (.resp 200 ⟨some [[("k", .str "A"), ("v", .num 2)]], .absent, none⟩)).errors = [] :=
  (chart_submit_cases s0 "totals" "Bar"
      (.resp 200 ⟨some [[("k", .str "A"), ("v", .num 2)]], .absent, none⟩)
      (by decide)).1
    ⟨some [[("k", .str "A"), ("v", .num 2)]], .absent, none⟩ rfl (by decide)

/-- Claim C9: a 200 chart reply whose error field is absent or null and
whose df_final is absent or the empty list still appends an entry holding
the empty table to chart history, and that entry later renders as the
no-data error rather than a chart. -/
theorem empty_df_final_stored (s : SessionState) (instr ctype : String)
    (body : ChartBody) (h1 : pyBlank instr = false)
    (h2 : body.error = .absent ∨ body.error = .null)
    (h3 : body.df_final.getD [] = []) :
    (chart_submit s true instr ctype (.resp 200 body)).state.chart_history
      = s.chart_history ++ [⟨instr, ctype, ⟨[], []⟩⟩]
    ∧ render_entry ⟨instr, ctype, ⟨[], []⟩⟩ =
        entryHeader ⟨instr, ctype, ⟨[], []⟩⟩ ++
          [.errorMsg noDataMsg, .markdown "---"] := by
  have herr : body.error.truthy = false := by
    rcases h2 with h2 | h2 <;> simp [h2, JsonField.truthy]
  constructor
  · simp [chart_submit, h1, herr, h3, dfOfRecords, keysUnion]
  · simp [render_entry]

/-- Witness for empty_df_final_stored: a 200 reply with null error and
df_final absent appends the empty-table entry. -/
theorem empty_df_final_stored_witness :
    (chart_submit s0 true "anything" "Line"
        (.resp 200 ⟨none, .null, none⟩)).state.chart_history
      = s0.chart_history ++ [⟨"anything", "Line", ⟨[], []⟩⟩]
    ∧ render_entry ⟨"anything", "Line", ⟨[], []⟩⟩ =
        entryHeader ⟨"anything", "Line", ⟨[], []⟩⟩ ++
          [.errorMsg noDataMsg, .markdown "---"] :=
  empty_df_final_stored s0 "anything" "Line" ⟨none, .null, none⟩
    (by decide) (Or.inr rfl) rfl

/-- Claim C10: pressing the Clear Chat button empties chat history and
leaves every other session-state field unchanged: current_data,
chart_history, data_source_visible and selected_tab keep their values. -/
theorem clear_chat_frame (s : SessionState) :
    (clear_chat s).chat_history = []
    ∧ (clear_chat s).current_data = s.current_data
    ∧ (clear_chat s).chart_history = s.chart_history
    ∧ (clear_chat s).data_source_visible = s.data_source_visible
    ∧ (clear_chat s).selected_tab = s.selected_tab := by
  simp [clear_chat]

theorem optMapM_length (f : α → Option β) :
    ∀ xs ys, optMapM f xs = some ys → ys.length = xs.length := by
  intro xs
  induction xs with
  | nil =>
    intro ys h
    cases h
    rfl
  | cons x xs ih =>
    intro ys h
    unfold optMapM at h
    cases hfx : f x with
    | none =>
      rw [hfx] at h
      cases h
    | some y =>
      rw [hfx] at h
      cases hrest : optMapM f xs with
      | none =>
        rw [hrest] at h
        cases h
      | some ys2 =>
        rw [hrest] at h
        cases h
        simp [ih ys2 hrest]

theorem render_history_append (pre post : List ChartEntry) (e : ChartEntry) :
    render_history (pre ++ e :: post)
      = render_history post ++ render_entry e ++ render_history pre := by
  simp [render_history]

/-- Claim C6 (counterexample): a pie entry whose second column holds the
negative value -5 next to the unconvertible string zzz refutes the
original claim — the column-wide astype(float) raises on zzz before the
negative check runs, so rendering that entry produces an uncaught
exception (which aborts the whole render loop) and shows no error box at
all. -/
theorem negative_pie_crash :
    pyLower entNegBad.chart_type = "pie"
    ∧ cellFloat ((entNegBad.df_final.rows.getD 0 []).getD 1 .null)
        = some (.fin (-5))
    ∧ PyFloat.ltZero (.fin (-5)) = true
    ∧ render_entry entNegBad
        = entryHeader entNegBad ++ [.raised "float conversion"]
    ∧ (∀ m, RenderAction.errorMsg m ∉ render_entry entNegBad) := by
  refine ⟨by decide, by decide, by decide, by decide, ?_⟩
  intro m hm
  have hre : render_entry entNegBad
      = entryHeader entNegBad ++ [.raised "float conversion"] := by decide
  rw [hre] at hm
  simp [entryHeader, entNegBad] at hm

/-- Claim C6 (amended): for every chart history entry of pie type whose
stored table second column fully converts to floats and holds a negative
value, rendering that entry shows an error, never reaches the
pie-plotting call, and the remaining entries of the history still render
around it; when some second-column cell does not convert, astype(float)
raises instead and no error box is shown. -/
theorem negative_pie_aborts (e : ChartEntry) (pre post : List ChartEntry)
    (vs : List PyFloat)
    (hty : pyLower e.chart_type = "pie")
    (hconv : colFloats e.df_final = some vs)
    (hneg : vs.any PyFloat.ltZero = true) :
    (∃ m, RenderAction.errorMsg m ∈ render_entry e)
    ∧ (∀ ls xs, RenderAction.pyplotPie ls xs ∉ render_entry e)
    ∧ render_history (pre ++ e :: post)
        = render_history post ++ render_entry e ++ render_history pre := by
  have hcols : ¬ e.df_final.cols.length < 2 := by
    intro hc
    simp [colFloats, hc] at hconv
  have hmapm : optMapM (fun r => cellFloat (r.getD 1 .null)) e.df_final.rows
      = some vs := by
    rw [colFloats, if_neg hcols] at hconv
    exact hconv
  have hvs : vs ≠ [] := by
    intro h
    subst h
    simp at hneg
  have hrows : e.df_final.rows ≠ [] := by
    intro h
    apply hvs
    have hlen := optMapM_length _ _ _ hmapm
    rw [h] at hlen
    exact List.eq_nil_of_length_eq_zero hlen
  have hcolsne : e.df_final.cols ≠ [] := by
    intro h
    apply hcols
    simp [h]
  have hre : (render_entry e = entryHeader e ++
        [.errorMsg (pyStr (errorFirst e.df_final)), .markdown "---"])
      ∨ (render_entry e = entryHeader e ++ [.errorMsg negPieMsg, .markdown "---"]) := by
    by_cases hE : "Error" ∈ e.df_final.cols
    · left
      simp [render_entry, hrows, hcolsne, hE]
    · right
      simp [render_entry, hrows, hcolsne, hE, hty, pieData, hconv, hneg]
  refine ⟨?_, ?_, render_history_append pre post e⟩
  · rcases hre with h | h
    · exact ⟨pyStr (errorFirst e.df_final), by rw [h]; simp⟩
    · exact ⟨negPieMsg, by rw [h]; simp⟩
  · intro ls xs hmem
    rcases hre with h | h <;> rw [h] at hmem <;> simp [entryHeader] at hmem

/-- Witness for negative_pie_aborts at the concrete pie entry with rows
(A,-5) and (B,10): an error renders, the pie call never fires, and
neighbouring entries are unaffected. -/
theorem negative_pie_aborts_witness :
    (∃ m, RenderAction.errorMsg m ∈ render_entry entNeg)
    ∧ (∀ ls xs, RenderAction.pyplotPie ls xs ∉ render_entry entNeg)
    ∧ render_history ([] ++ entNeg :: [])
        = render_history [] ++ render_entry entNeg ++ render_history [] :=
  negative_pie_aborts entNeg [] [] [.fin (-5), .fin 10]
    (by decide) (by decide) (by decide)

/-- Claim C7: the renderer shows the no-data error and skips an entry
whose stored table is empty or has zero columns, shows the first value of
an explicit Error column and skips when such a column is present, invokes
no chart widget for a skipped entry, and always renders the remaining
entries of the history around it. -/
theorem renderer_skips (e : ChartEntry) (pre post : List ChartEntry) :
    ((e.df_final.rows = [] ∨ e.df_final.cols = []) →
      render_entry e = entryHeader e ++ [.errorMsg noDataMsg, .markdown "---"]
      ∧ ∀ a ∈ render_entry e, a.isChartCall = false)
    ∧ (e.df_final.rows ≠ [] → "Error" ∈ e.df_final.cols →
      render_entry e = entryHeader e ++
        [.errorMsg (pyStr (errorFirst e.df_final)), .markdown "---"]
      ∧ ∀ a ∈ render_entry e, a.isChartCall = false)
    ∧ render_history (pre ++ e :: post)
        = render_history post ++ render_entry e ++ render_history pre := by
  refine ⟨fun h => ?_, fun hr hE => ?_, render_history_append pre post e⟩
  · have hre : render_entry e = entryHeader e ++ [.errorMsg noDataMsg, .markdown "---"] := by
      rcases h with h | h <;> simp [render_entry, h]
    refine ⟨hre, ?_⟩
    rw [hre]
    intro a ha
    simp [entryHeader] at ha
    rcases ha with rfl | rfl | rfl | rfl <;> rfl
  · have hcolsne : e.df_final.cols ≠ [] := by
      intro h
      rw [h] at hE
      cases hE
    have hre : render_entry e = entryHeader e ++
        [.errorMsg (pyStr (errorFirst e.df_final)), .markdown "---"] := by
      simp [render_entry, hr, hcolsne, hE]
    refine ⟨hre, ?_⟩
    rw [hre]
    intro a ha
    simp [entryHeader] at ha
    rcases ha with rfl | rfl | rfl | rfl <;> rfl

/-- Witness for renderer_skips at the concrete empty-table entry: it
renders as the no-data error. -/
theorem renderer_skips_witness :
    render_entry entEmpty
      = entryHeader entEmpty ++ [.errorMsg noDataMsg, .markdown "---"] :=
  ((renderer_skips entEmpty [] []).1 (Or.inl rfl)).1

end DataChat
